import Mathlib

/-!
Verification development for the mcp-file-server repository
(src/mcp_file_server/server.py).

The server resolves caller-supplied paths against a base directory
(`get_full_path`, `get_relative_path`) and exposes six tool operations
(`list_files`, `read_file`, `create_file`, `delete_file`,
`create_directory`, `delete_directory`), each of which performs
existence checks followed by one filesystem call whose failure is
(in five of the six operations) caught and turned into an error result.

The embedding below models:
  * `PyPath` — a parsed `pathlib.PurePosixPath`: an absoluteness flag and
    the list of path segments (pathlib drops `.` and empty segments at
    parse time, but keeps `..` segments literally);
  * `FS` — the relevant slice of the host filesystem: an association
    list from canonical absolute paths (segment lists with `..`
    resolved away, as the OS resolves them at each system call) to
    entries (regular file with UTF-8 text content, or directory);
  * `Faults` — the environment: which underlying filesystem call, if
    any, raises an exception, and with what message.
Each operation is translated branch-for-branch from the Python source;
`Except.error` marks an exception that escapes the operation
(no try/except catches it), `Except.ok` a value returned to the caller.
-/

set_option autoImplicit false

/-- A parsed pathlib path: absoluteness flag plus segment list. -/
structure PyPath where
  absolute : Bool
  segments : List String
deriving DecidableEq, Repr

/-- Model of `pathlib.PurePosixPath("/")`. -/
def rootPath : PyPath := ⟨true, []⟩

/-- Model of `Path.is_absolute`. -/
def PyPath.is_absolute (p : PyPath) : Bool := p.absolute

/-- Model of `Path.joinpath` (joining an absolute path discards the left side). -/
def joinpath (p q : PyPath) : PyPath :=
  if q.absolute then q else ⟨p.absolute, p.segments ++ q.segments⟩

/-- Strips `xs` from the front of `ys`; `none` if `xs` is not a leading run of `ys`. -/
def stripPre : List String → List String → Option (List String)
  | [], ys => some ys
  | _ :: _, [] => none
  | x :: xs, y :: ys => if x = y then stripPre xs ys else none

/-- Model of `Path.relative_to`: succeeds exactly when `base` leads `p` and
both have the same absoluteness (otherwise pathlib raises `ValueError`). -/
def relative_to (p base : PyPath) : Option PyPath :=
  if p.absolute = base.absolute then
    match stripPre base.segments p.segments with
    | some rest => some ⟨false, rest⟩
    | none => none
  else none

/-- Model of `str(path)` / `Path.as_posix` for a POSIX path. -/
def PyPath.str (p : PyPath) : String :=
  if p.absolute then "/" ++ String.intercalate "/" p.segments
  else if p.segments.isEmpty then "." else String.intercalate "/" p.segments

/-- Model of `full_path / name` for a single child name. -/
def childPath (p : PyPath) (n : String) : PyPath :=
  ⟨p.absolute, p.segments ++ [n]⟩

/-- server.py, get_full_path: join onto the base path, stripping a leading
root marker from absolute inputs (`relative_path.relative_to("/")`). -/
def get_full_path (basePath relative_path : PyPath) : PyPath :=
  if relative_path.is_absolute then
    joinpath basePath ((relative_to relative_path rootPath).getD rootPath)
  else
    joinpath basePath relative_path

/-- server.py, get_relative_path: `Path("/").joinpath(full_path.relative_to(BASE_PATH))`;
`none` models the `ValueError` raised when `full_path` is not under the base. -/
def get_relative_path (basePath full_path : PyPath) : Option PyPath :=
  (relative_to full_path basePath).map (fun r => joinpath rootPath r)

/-- Canonical path keys: absolute paths as segment lists with `..` resolved. -/
abbrev Key := List String

/-- OS-level resolution of `..` segments (the parent of the root is the root). -/
def canonKey (segs : List String) : Key :=
  segs.foldl (fun acc s => if s = ".." then acc.dropLast else acc ++ [s]) []

/-- The canonical key the OS resolves `get_full_path basePath p` to. -/
def resolvedKey (basePath p : PyPath) : Key :=
  canonKey (get_full_path basePath p).segments

/-- `b` is a leading run of `k` (descendant-or-equal test on canonical keys). -/
def keyUnder (b k : Key) : Bool := (stripPre b k).isSome

/-- A filesystem entry: a regular file with UTF-8 text content, or a directory. -/
inductive Entry where
  | file (content : String)
  | dir
deriving DecidableEq, Repr

/-- The modelled filesystem: association list from canonical keys to entries. -/
abbrev FS := List (Key × Entry)

/-- First entry stored under key `k`. -/
def fsFind : FS → Key → Option Entry
  | [], _ => none
  | kv :: rest, k => if kv.1 = k then some kv.2 else fsFind rest k

/-- Remove every entry stored under key `k`. -/
def fsRemove (fs : FS) (k : Key) : FS :=
  fs.filter (fun kv => decide (kv.1 ≠ k))

/-- Model of `full_path.exists()` (the OS resolves `..` in the raw path). -/
def pyExists (fs : FS) (k : Key) : Bool := (fsFind fs k).isSome

/-- Model of `full_path.is_dir()`. -/
def pyIsDir (fs : FS) (k : Key) : Bool := decide (fsFind fs k = some Entry.dir)

/-- Model of `full_path.is_file()`. -/
def pyIsFile (fs : FS) (k : Key) : Bool :=
  match fsFind fs k with
  | some (Entry.file _) => true
  | _ => false

/-- Direct children of directory key `k`, in filesystem enumeration order. -/
def childrenOf (fs : FS) (k : Key) : List (String × Entry) :=
  fs.filterMap (fun kv =>
    match stripPre k kv.1 with
    | some [n] => some (n, kv.2)
    | _ => none)

/-- Some entry lies strictly below key `k` (so `rmdir` reports not empty). -/
def hasDescendant (fs : FS) (k : Key) : Bool :=
  fs.any (fun kv =>
    match stripPre k kv.1 with
    | some (_ :: _) => true
    | _ => false)

/-- Which underlying filesystem call, if any, raises, and with what message. -/
structure Faults where
  iterFail : Bool
  readFail : Option String
  writeFail : Option String
  unlinkFail : Option String
  mkdirFail : Option String
  rmdirFail : Option String
deriving DecidableEq, Repr

/-- The fault-free environment: every filesystem call succeeds. -/
def noFaults : Faults := ⟨false, none, none, none, none, none⟩

/-- Result of the mutating operations: `{"message": ...}` or `{"error": ...}`. -/
inductive OpResult where
  | message (s : String)
  | error (s : String)
deriving DecidableEq, Repr

/-- Result of read_file: the content string, or `{"error": ...}`. -/
inductive ReadResult where
  | content (s : String)
  | error (s : String)
deriving DecidableEq, Repr

/-- One record of a directory listing (name, display path, type, size). -/
structure EntryInfo where
  name : String
  fullPath : String
  type : String
  size : Option Nat
deriving DecidableEq, Repr

/-- Result of list_files: an error object, an informational message, or records. -/
inductive ListResult where
  | message (s : String)
  | error (s : String)
  | entries (l : List EntryInfo)
deriving DecidableEq, Repr

/-- `"Directory" if f.is_dir() else "File"` for an entry of the modelled fs. -/
def entryTypeName : Entry → String
  | Entry.dir => "Directory"
  | Entry.file _ => "File"

/-- `f.stat().st_size if f.is_file() else "-"` (the dash is modelled as `none`). -/
def entrySize : Entry → Option Nat
  | Entry.file c => some c.utf8ByteSize
  | Entry.dir => none

/-- One listing record, as built in the loop body of list_files:
name, `get_relative_path(f).as_posix()`, type, size-or-dash. -/
def listEntry (basePath path : PyPath) (n : String) (e : Entry) : EntryInfo :=
  { name := n
    fullPath := ((get_relative_path basePath (childPath (get_full_path basePath path) n)).getD rootPath).str
    type := entryTypeName e
    size := entrySize e }

/-- server.py, list_files. The existence checks return an error object; the
`iterdir` / `stat` enumeration is NOT wrapped in try/except, so a failure
there escapes as an exception (`Except.error`). -/
def list_files (basePath : PyPath) (fs : FS) (flt : Faults) (path : PyPath) :
    Except Unit ListResult :=
  let key := resolvedKey basePath path
  if !pyExists fs key || !pyIsDir fs key then
    Except.ok (ListResult.error s!"Directory {path.str} does not exist or is not a directory.")
  else if flt.iterFail then
    Except.error ()
  else
    let infos := (childrenOf fs key).map (fun ne => listEntry basePath path ne.1 ne.2)
    if infos.length = 0 then
      Except.ok (ListResult.message s!"No files found in directory {path.str}.")
    else
      Except.ok (ListResult.entries infos)

/-- server.py, read_file: existence/kind check, then a try/except-guarded read. -/
def read_file (basePath : PyPath) (fs : FS) (flt : Faults) (file_path : PyPath) :
    Except Unit ReadResult :=
  let key := resolvedKey basePath file_path
  if !pyExists fs key || !pyIsFile fs key then
    Except.ok (ReadResult.error s!"File {file_path.str} does not exist or is not a file.")
  else
    match flt.readFail with
    | some e => Except.ok (ReadResult.error s!"Error reading file {file_path.str}: {e}")
    | none =>
      match fsFind fs key with
      | some (Entry.file c) => Except.ok (ReadResult.content c)
      | _ => Except.ok (ReadResult.error s!"File {file_path.str} does not exist or is not a file.")

/-- server.py, create_file: collision checks, then a try/except-guarded
`open(full_path, "w")` followed by a write.  The open call itself fails
(FileNotFoundError / NotADirectoryError) when the parent of the target is
not an existing directory. -/
def create_file (basePath : PyPath) (fs : FS) (flt : Faults) (file_path : PyPath)
    (content : String) : Except Unit (OpResult × FS) :=
  let key := resolvedKey basePath file_path
  if pyExists fs key then
    if pyIsDir fs key then
      Except.ok (OpResult.error s!"File {file_path.str} is an existing directory.", fs)
    else
      Except.ok (OpResult.error s!"File {file_path.str} already exists.", fs)
  else
    match flt.writeFail with
    | some e => Except.ok (OpResult.error s!"Error creating file {file_path.str}: {e}", fs)
    | none =>
      if pyIsDir fs key.dropLast then
        Except.ok (OpResult.message s!"File {file_path.str} created successfully.",
          (key, Entry.file content) :: fs)
      else
        Except.ok (OpResult.error
          s!"Error creating file {file_path.str}: [Errno 2] No such file or directory", fs)

/-- server.py, delete_file: existence/kind check, then a try/except-guarded unlink. -/
def delete_file (basePath : PyPath) (fs : FS) (flt : Faults) (file_path : PyPath) :
    Except Unit (OpResult × FS) :=
  let key := resolvedKey basePath file_path
  if !pyExists fs key || !pyIsFile fs key then
    Except.ok (OpResult.error s!"File {file_path.str} does not exist or is not a file.", fs)
  else
    match flt.unlinkFail with
    | some e => Except.ok (OpResult.error s!"Error deleting file {file_path.str}: {e}", fs)
    | none =>
      Except.ok (OpResult.message s!"File {file_path.str} deleted successfully.",
        fsRemove fs key)

/-- The proper leading runs of a key, shortest first (the path components
`mkdir(parents=True)` walks through before the target itself). -/
def properInits : Key → List Key
  | [] => []
  | x :: xs => [] :: (properInits xs).map (fun pk => x :: pk)

/-- `mkdir(parents=True)` succeeds only if no walked component is a regular file. -/
def ancestorsOk (fs : FS) (k : Key) : Bool :=
  (properInits k).all (fun pk => !pyIsFile fs pk)

/-- One step of recursive directory creation: create `pk` unless it is the
filesystem root or already present. -/
def mkdirStep (acc : FS) (pk : Key) : FS :=
  if pk.isEmpty then acc
  else if (fsFind acc pk).isSome then acc
  else (pk, Entry.dir) :: acc

/-- Effect of a successful `mkdir(parents=True, exist_ok=False)`: create every
missing component from the shortest ancestor down to the target. -/
def mkdirs (fs : FS) (k : Key) : FS :=
  (properInits k ++ [k]).foldl mkdirStep fs

/-- server.py, create_directory: collision checks, then a try/except-guarded
`mkdir(parents=True, exist_ok=False)`. -/
def create_directory (basePath : PyPath) (fs : FS) (flt : Faults) (dir_path : PyPath) :
    Except Unit (OpResult × FS) :=
  let key := resolvedKey basePath dir_path
  if pyExists fs key then
    if pyIsFile fs key then
      Except.ok (OpResult.error s!"File {dir_path.str} is an existing file.", fs)
    else
      Except.ok (OpResult.error s!"Directory {dir_path.str} already exists.", fs)
  else
    match flt.mkdirFail with
    | some e => Except.ok (OpResult.error s!"Error creating directory {dir_path.str}: {e}", fs)
    | none =>
      if ancestorsOk fs key then
        Except.ok (OpResult.message s!"Directory {dir_path.str} created successfully.",
          mkdirs fs key)
      else
        Except.ok (OpResult.error
          s!"Error creating directory {dir_path.str}: [Errno 20] Not a directory", fs)

/-- server.py, delete_directory: existence/kind check, then a try/except-guarded
rmdir, which raises (caught) on a non-empty directory. -/
def delete_directory (basePath : PyPath) (fs : FS) (flt : Faults) (dir_path : PyPath) :
    Except Unit (OpResult × FS) :=
  let key := resolvedKey basePath dir_path
  if !pyExists fs key || !pyIsDir fs key then
    Except.ok (OpResult.error s!"Directory {dir_path.str} does not exist or is not a directory.", fs)
  else if hasDescendant fs key then
    Except.ok (OpResult.error
      s!"Error deleting directory {dir_path.str}: [Errno 39] Directory not empty", fs)
  else
    match flt.rmdirFail with
    | some e => Except.ok (OpResult.error s!"Error deleting directory {dir_path.str}: {e}", fs)
    | none =>
      Except.ok (OpResult.message s!"Directory {dir_path.str} deleted successfully.",
        fsRemove fs key)

/-- The source default `BASE_PATH = pathlib.Path("/data")`. -/
def dataBase : PyPath := ⟨true, ["data"]⟩

/-! ## Helper lemmas -/

theorem get_full_path_norm (b p : PyPath) :
    get_full_path b p = ⟨b.absolute, b.segments ++ p.segments⟩ := by
  cases p with
  | mk abs segs => cases abs <;> rfl

theorem stripPre_append (xs ys : List String) : stripPre xs (xs ++ ys) = some ys := by
  induction xs with
  | nil => rfl
  | cons x xs ih => simp [stripPre, ih]

theorem stripPre_eq_some {xs ys rest : List String} (h : stripPre xs ys = some rest) :
    ys = xs ++ rest := by
  induction xs generalizing ys with
  | nil => simpa [stripPre] using h
  | cons x xs ih =>
    cases ys with
    | nil => simp [stripPre] at h
    | cons y ys =>
      by_cases hxy : x = y
      · subst hxy
        simp only [stripPre, if_pos rfl] at h
        simpa using ih h
      · simp [stripPre, hxy] at h

theorem fsRemove_find_self (fs : FS) (k : Key) : fsFind (fsRemove fs k) k = none := by
  induction fs with
  | nil => rfl
  | cons kv rest ih =>
    by_cases hk : kv.1 = k
    · simpa [fsRemove, List.filter, hk] using ih
    · simpa [fsRemove, List.filter, hk, fsFind] using ih

theorem fsRemove_find_other (fs : FS) (k k2 : Key) (h : k2 ≠ k) :
    fsFind (fsRemove fs k) k2 = fsFind fs k2 := by
  have hkk2 : ¬(k = k2) := fun e => h e.symm
  induction fs with
  | nil => rfl
  | cons kv rest ih =>
    by_cases hk : kv.1 = k
    · simpa [fsRemove, List.filter_cons, hk, fsFind, hkk2] using ih
    · by_cases hk2 : kv.1 = k2
      · simp [fsRemove, List.filter_cons, hk, fsFind, hk2, h]
      · simpa [fsRemove, List.filter_cons, hk, fsFind, hk2] using ih

/-! ## Claims -/

/-- C1: the spec states that path resolution always yields a descendant of
the base directory and rejects traversal; the code never rejects or
canonicalizes `..` segments, so the caller input `../../etc/passwd`
resolves to the canonical key `etc/passwd`, which is not under the base
`/data`, and read_file then reads that outside file. -/
theorem c1_path_traversal_escape :
    resolvedKey dataBase ⟨false, ["..", "..", "etc", "passwd"]⟩ = ["etc", "passwd"] ∧
    keyUnder (canonKey dataBase.segments)
      (resolvedKey dataBase ⟨false, ["..", "..", "etc", "passwd"]⟩) = false ∧
    read_file dataBase
      [([], Entry.dir), (["data"], Entry.dir), (["etc"], Entry.dir),
        (["etc", "passwd"], Entry.file "secret")]
      noFaults ⟨false, ["..", "..", "etc", "passwd"]⟩ =
      Except.ok (ReadResult.content "secret") :=
  ⟨rfl, rfl, rfl⟩

/-- C2 counterexample: list_files does not wrap its directory enumeration in
try/except, so a filesystem failure raised there propagates as an exception
instead of becoming an error result. -/
theorem c2_uncaught_enumeration_failure :
    list_files dataBase [([], Entry.dir), (["data"], Entry.dir), (["data", "d"], Entry.dir)]
      ⟨true, none, none, none, none, none⟩ ⟨false, ["d"]⟩ = Except.error () := rfl

/-- C2 (amended): the five non-listing operations catch every
filesystem-layer failure at the operation boundary and always return a
well-formed result; only list_files can propagate an exception. -/
theorem c2_non_listing_ops_never_raise (b : PyPath) (fs : FS) (flt : Faults)
    (p : PyPath) (c : String) :
    (∃ r, read_file b fs flt p = Except.ok r) ∧
    (∃ r, create_file b fs flt p c = Except.ok r) ∧
    (∃ r, delete_file b fs flt p = Except.ok r) ∧
    (∃ r, create_directory b fs flt p = Except.ok r) ∧
    (∃ r, delete_directory b fs flt p = Except.ok r) := by
  refine ⟨?_, ?_, ?_, ?_, ?_⟩ <;>
    simp only [read_file, create_file, delete_file, create_directory, delete_directory] <;>
    repeat' (first | exact ⟨_, rfl⟩ | split)

/-- C7: get_full_path joins the input onto the base directory, first
stripping the leading root marker when the input is absolute — so the
result keeps the rootedness of the base, its segments are the base
segments followed by the input segments, and an absolute input behaves
exactly like its root-stripped relative form. -/
theorem c7_get_full_path_resolution (b p : PyPath) :
    (get_full_path b p).absolute = b.absolute ∧
    (get_full_path b p).segments = b.segments ++ p.segments ∧
    get_full_path b p = get_full_path b ⟨false, p.segments⟩ := by
  simp [get_full_path_norm]

/-- C10: the display-path function is a left inverse of path resolution
re-rooted at the root marker — for a relative input without `..`,
get_relative_path after get_full_path returns the input re-rooted at `/`;
and for any absolute path under the base, get_full_path after
get_relative_path returns it unchanged. -/
theorem c10_display_path_inverse (b p q : PyPath) :
    (p.absolute = false → ".." ∉ p.segments →
      get_relative_path b (get_full_path b p) = some ⟨true, p.segments⟩) ∧
    (b.absolute = true → q.absolute = true → keyUnder b.segments q.segments = true →
      ∃ r, get_relative_path b q = some r ∧ get_full_path b r = q) := by
  constructor
  · intro _ _
    rw [get_full_path_norm]
    simp [get_relative_path, relative_to, stripPre_append, joinpath, rootPath]
  · intro hb hq hunder
    obtain ⟨rest, hrest⟩ : ∃ rest, stripPre b.segments q.segments = some rest := by
      cases h : stripPre b.segments q.segments with
      | none => simp [keyUnder, h] at hunder
      | some rest => exact ⟨rest, rfl⟩
    refine ⟨⟨true, rest⟩, ?_, ?_⟩
    · simp [get_relative_path, relative_to, hb, hq, hrest, joinpath, rootPath]
    · rw [get_full_path_norm]
      have hsegs := stripPre_eq_some hrest
      cases q with
      | mk qa qs =>
        simp only at hq hsegs
        simp [hq, hb, hsegs]

/-- Concrete fixture: base directory containing a file and an empty subdirectory. -/
def fsA : FS := [([], Entry.dir), (["data"], Entry.dir),
  (["data", "a.txt"], Entry.file "hello"), (["data", "sub"], Entry.dir)]

/-- C10 witness at the base `/data`, the relative path `sub/a.txt` and the
absolute path `/data/sub`. -/
theorem c10_display_path_inverse_witness :
    get_relative_path dataBase (get_full_path dataBase ⟨false, ["sub", "a.txt"]⟩) =
      some ⟨true, ["sub", "a.txt"]⟩ ∧
    (∃ r, get_relative_path dataBase ⟨true, ["data", "sub"]⟩ = some r ∧
      get_full_path dataBase r = ⟨true, ["data", "sub"]⟩) :=
  ⟨(c10_display_path_inverse dataBase ⟨false, ["sub", "a.txt"]⟩ ⟨true, ["data", "sub"]⟩).1
      rfl (by decide),
    (c10_display_path_inverse dataBase ⟨false, ["sub", "a.txt"]⟩ ⟨true, ["data", "sub"]⟩).2
      rfl rfl rfl⟩

/-- C3: when the resolved path already holds an entry, create_file returns
the matching Already-Exists-class error and leaves the filesystem unchanged;
it never overwrites. -/
theorem c3_create_file_never_overwrites (b : PyPath) (fs : FS) (flt : Faults)
    (p : PyPath) (c : String) :
    (fsFind fs (resolvedKey b p) = some Entry.dir →
      create_file b fs flt p c =
        Except.ok (OpResult.error s!"File {p.str} is an existing directory.", fs)) ∧
    (∀ d, fsFind fs (resolvedKey b p) = some (Entry.file d) →
      create_file b fs flt p c =
        Except.ok (OpResult.error s!"File {p.str} already exists.", fs)) := by
  constructor
  · intro h
    simp [create_file, pyExists, pyIsDir, h]
  · intro d h
    simp [create_file, pyExists, pyIsDir, h]

/-- C3 witness: creating over the existing directory `sub` and over the
existing file `a.txt` both fail with the matching message and change nothing. -/
theorem c3_create_file_never_overwrites_witness :
    create_file dataBase fsA noFaults ⟨false, ["sub"]⟩ "x" =
      Except.ok (OpResult.error "File sub is an existing directory.", fsA) ∧
    create_file dataBase fsA noFaults ⟨false, ["a.txt"]⟩ "x" =
      Except.ok (OpResult.error "File a.txt already exists.", fsA) :=
  ⟨(c3_create_file_never_overwrites dataBase fsA noFaults ⟨false, ["sub"]⟩ "x").1 rfl,
    (c3_create_file_never_overwrites dataBase fsA noFaults ⟨false, ["a.txt"]⟩ "x").2 "hello" rfl⟩

/-- C4: deleting a non-empty directory returns the Not-Empty error and leaves
the filesystem (the directory and all its contents) unchanged. -/
theorem c4_delete_directory_not_empty (b : PyPath) (fs : FS) (flt : Faults) (p : PyPath)
    (hdir : fsFind fs (resolvedKey b p) = some Entry.dir)
    (hne : hasDescendant fs (resolvedKey b p) = true) :
    delete_directory b fs flt p =
      Except.ok (OpResult.error
        s!"Error deleting directory {p.str}: [Errno 39] Directory not empty", fs) := by
  simp [delete_directory, pyExists, pyIsDir, hdir, hne]

/-- Concrete fixture: like fsA but with a file inside the subdirectory. -/
def fsB : FS := [([], Entry.dir), (["data"], Entry.dir),
  (["data", "sub"], Entry.dir), (["data", "sub", "f.txt"], Entry.file "inside")]

/-- C4 witness: deleting the non-empty directory `sub` fails and changes nothing. -/
theorem c4_delete_directory_not_empty_witness :
    fsFind fsB (resolvedKey dataBase ⟨false, ["sub"]⟩) = some Entry.dir ∧
    hasDescendant fsB (resolvedKey dataBase ⟨false, ["sub"]⟩) = true ∧
    delete_directory dataBase fsB noFaults ⟨false, ["sub"]⟩ =
      Except.ok (OpResult.error
        "Error deleting directory sub: [Errno 39] Directory not empty", fsB) :=
  ⟨rfl, rfl, c4_delete_directory_not_empty dataBase fsB noFaults ⟨false, ["sub"]⟩ rfl rfl⟩

/-- C5: with no entry at the resolved path, its parent an existing directory
and no filesystem fault, create_file succeeds and a subsequent read_file of
the same path returns exactly the written content. -/
theorem c5_create_then_read_roundtrip (b : PyPath) (fs : FS) (flt : Faults)
    (p : PyPath) (c : String)
    (hnone : fsFind fs (resolvedKey b p) = none)
    (hparent : pyIsDir fs (resolvedKey b p).dropLast = true)
    (hw : flt.writeFail = none)
    (hr : flt.readFail = none) :
    ∃ fs2, create_file b fs flt p c =
        Except.ok (OpResult.message s!"File {p.str} created successfully.", fs2) ∧
      read_file b fs2 flt p = Except.ok (ReadResult.content c) := by
  refine ⟨(resolvedKey b p, Entry.file c) :: fs, ?_, ?_⟩
  · simp [create_file, pyExists, hnone, hw, hparent]
  · simp [read_file, pyExists, pyIsFile, fsFind, hr]

/-- C5 witness: writing `payload` at the fresh path `sub/new.txt` and reading
it back returns `payload`. -/
theorem c5_create_then_read_roundtrip_witness :
    fsFind fsA (resolvedKey dataBase ⟨false, ["sub", "new.txt"]⟩) = none ∧
    pyIsDir fsA (resolvedKey dataBase ⟨false, ["sub", "new.txt"]⟩).dropLast = true ∧
    ∃ fs2, create_file dataBase fsA noFaults ⟨false, ["sub", "new.txt"]⟩ "payload" =
        Except.ok (OpResult.message "File sub/new.txt created successfully.", fs2) ∧
      read_file dataBase fs2 noFaults ⟨false, ["sub", "new.txt"]⟩ =
        Except.ok (ReadResult.content "payload") :=
  ⟨rfl, rfl,
    c5_create_then_read_roundtrip dataBase fsA noFaults ⟨false, ["sub", "new.txt"]⟩
      "payload" rfl rfl rfl rfl⟩

theorem listEntry_fullPath (b p : PyPath) (n : String) (e : Entry) :
    (listEntry b p n e).fullPath = PyPath.str ⟨true, p.segments ++ [n]⟩ := by
  have hassoc : (b.segments ++ p.segments) ++ [n] = b.segments ++ (p.segments ++ [n]) :=
    List.append_assoc b.segments p.segments [n]
  simp [listEntry, childPath, get_full_path_norm, get_relative_path, relative_to,
    hassoc, stripPre_append, joinpath, rootPath]

/-- C6: for every path, list_files (absent an enumeration fault) returns
exactly one of: an error object when the resolved path is not an existing
directory, the informational no-entries message when the directory is
empty, or a non-empty sequence of records each carrying name, display path
relative to the base re-rooted at `/`, type, and size-or-dash. -/
theorem c6_list_files_trichotomy (b : PyPath) (fs : FS) (flt : Faults) (p : PyPath)
    (hio : flt.iterFail = false) :
    (fsFind fs (resolvedKey b p) ≠ some Entry.dir →
      list_files b fs flt p =
        Except.ok (ListResult.error
          s!"Directory {p.str} does not exist or is not a directory.")) ∧
    (fsFind fs (resolvedKey b p) = some Entry.dir → childrenOf fs (resolvedKey b p) = [] →
      list_files b fs flt p =
        Except.ok (ListResult.message s!"No files found in directory {p.str}.")) ∧
    (fsFind fs (resolvedKey b p) = some Entry.dir → childrenOf fs (resolvedKey b p) ≠ [] →
      ∃ l, list_files b fs flt p = Except.ok (ListResult.entries l) ∧ l ≠ [] ∧
        ∀ info ∈ l,
          ((info.type = "Directory" ∧ info.size = none) ∨
            (info.type = "File" ∧ ∃ nb, info.size = some nb)) ∧
          info.fullPath = PyPath.str ⟨true, p.segments ++ [info.name]⟩) := by
  refine ⟨?_, ?_, ?_⟩
  · intro h
    have hcond : (!pyExists fs (resolvedKey b p) || !pyIsDir fs (resolvedKey b p)) = true := by
      cases hf : fsFind fs (resolvedKey b p) with
      | none => simp [pyExists, hf]
      | some e =>
        cases e with
        | dir => exact absurd hf h
        | file d => simp [pyIsDir, hf]
    simp [list_files, hcond]
  · intro hdir hemp
    have hcond : (!pyExists fs (resolvedKey b p) || !pyIsDir fs (resolvedKey b p)) = false := by
      simp [pyExists, pyIsDir, hdir]
    simp [list_files, hcond, hio, hemp]
  · intro hdir hne
    have hcond : (!pyExists fs (resolvedKey b p) || !pyIsDir fs (resolvedKey b p)) = false := by
      simp [pyExists, pyIsDir, hdir]
    refine ⟨(childrenOf fs (resolvedKey b p)).map (fun ne => listEntry b p ne.1 ne.2),
      ?_, ?_, ?_⟩
    · simp [list_files, hcond, hio, List.length_eq_zero, hne]
    · simp [hne]
    · intro info hmem
      rw [List.mem_map] at hmem
      obtain ⟨⟨n, e⟩, _, hinfo⟩ := hmem
      subst hinfo
      constructor
      · cases e with
        | dir => exact Or.inl (by simp [listEntry, entryTypeName, entrySize])
        | file d =>
          exact Or.inr (by simp [listEntry, entryTypeName, entrySize])
      · have hn : (listEntry b p n e).name = n := rfl
        rw [hn, listEntry_fullPath]

/-- C6 witness: listing the base directory itself yields non-empty records
with the advertised fields; the hypotheses hold at the fault-free environment. -/
theorem c6_list_files_trichotomy_witness :
    fsFind fsA (resolvedKey dataBase ⟨false, []⟩) = some Entry.dir ∧
    ∃ l, list_files dataBase fsA noFaults ⟨false, []⟩ = Except.ok (ListResult.entries l) ∧
      l ≠ [] ∧
      ∀ info ∈ l,
        ((info.type = "Directory" ∧ info.size = none) ∨
          (info.type = "File" ∧ ∃ nb, info.size = some nb)) ∧
        info.fullPath = PyPath.str ⟨true, [info.name]⟩ :=
  ⟨rfl, (c6_list_files_trichotomy dataBase fsA noFaults ⟨false, []⟩ rfl).2.2 rfl (by decide)⟩

/-- C8: delete_file removes exactly the resolved file when it exists as a
regular file and the unlink call succeeds (the entry is gone, every other
key is untouched); a directory and a missing path are both rejected with
the does-not-exist-as-a-file error and nothing changes. -/
theorem c8_delete_file_exactness (b : PyPath) (fs : FS) (flt : Faults) (p : PyPath) :
    (∀ d, fsFind fs (resolvedKey b p) = some (Entry.file d) → flt.unlinkFail = none →
      delete_file b fs flt p =
        Except.ok (OpResult.message s!"File {p.str} deleted successfully.",
          fsRemove fs (resolvedKey b p)) ∧
      fsFind (fsRemove fs (resolvedKey b p)) (resolvedKey b p) = none ∧
      ∀ k2, k2 ≠ resolvedKey b p →
        fsFind (fsRemove fs (resolvedKey b p)) k2 = fsFind fs k2) ∧
    (fsFind fs (resolvedKey b p) = some Entry.dir →
      delete_file b fs flt p =
        Except.ok (OpResult.error s!"File {p.str} does not exist or is not a file.", fs)) ∧
    (fsFind fs (resolvedKey b p) = none →
      delete_file b fs flt p =
        Except.ok (OpResult.error s!"File {p.str} does not exist or is not a file.", fs)) := by
  refine ⟨?_, ?_, ?_⟩
  · intro d hf hu
    refine ⟨?_, fsRemove_find_self fs _, fun k2 hk2 => fsRemove_find_other fs _ k2 hk2⟩
    simp [delete_file, pyExists, pyIsFile, hf, hu]
  · intro hf
    simp [delete_file, pyExists, pyIsFile, hf]
  · intro hf
    simp [delete_file, pyExists, pyIsFile, hf]

/-- C8 witness: deleting `a.txt` removes exactly that entry; deleting the
directory `sub` through delete_file is rejected. -/
theorem c8_delete_file_exactness_witness :
    (delete_file dataBase fsA noFaults ⟨false, ["a.txt"]⟩ =
        Except.ok (OpResult.message "File a.txt deleted successfully.",
          fsRemove fsA (resolvedKey dataBase ⟨false, ["a.txt"]⟩)) ∧
      fsFind (fsRemove fsA (resolvedKey dataBase ⟨false, ["a.txt"]⟩))
        (resolvedKey dataBase ⟨false, ["a.txt"]⟩) = none ∧
      ∀ k2, k2 ≠ resolvedKey dataBase ⟨false, ["a.txt"]⟩ →
        fsFind (fsRemove fsA (resolvedKey dataBase ⟨false, ["a.txt"]⟩)) k2 =
          fsFind fsA k2) ∧
    delete_file dataBase fsA noFaults ⟨false, ["sub"]⟩ =
      Except.ok (OpResult.error "File sub does not exist or is not a file.", fsA) :=
  ⟨(c8_delete_file_exactness dataBase fsA noFaults ⟨false, ["a.txt"]⟩).1 "hello" rfl rfl,
    (c8_delete_file_exactness dataBase fsA noFaults ⟨false, ["sub"]⟩).2.1 rfl⟩

theorem fsFind_mkdirStep_ne (acc : FS) (pk k : Key) (h : pk ≠ k) :
    fsFind (mkdirStep acc pk) k = fsFind acc k := by
  unfold mkdirStep
  split
  · rfl
  · split
    · rfl
    · simp [fsFind, h]

theorem foldl_mkdirStep_preserve (l : List Key) (acc : FS) (k : Key)
    (h : fsFind acc k = some Entry.dir) :
    fsFind (l.foldl mkdirStep acc) k = some Entry.dir := by
  induction l generalizing acc with
  | nil => exact h
  | cons pk rest ih =>
    apply ih
    by_cases hpk : pk = k
    · subst hpk
      simp [mkdirStep, h]
    · rw [fsFind_mkdirStep_ne acc pk k hpk]
      exact h

theorem foldl_mkdirStep_creates :
    ∀ (l : List Key) (acc : FS) (k : Key), k ∈ l → k ≠ [] →
      (fsFind acc k = none ∨ fsFind acc k = some Entry.dir) →
      fsFind (l.foldl mkdirStep acc) k = some Entry.dir := by
  intro l
  induction l with
  | nil =>
    intro acc k hmem _ _
    exact absurd hmem (List.not_mem_nil k)
  | cons pk rest ih =>
    intro acc k hmem hk hacc
    by_cases hpk : pk = k
    · subst hpk
      have hempty : pk.isEmpty = false := by
        cases pk with
        | nil => exact absurd rfl hk
        | cons a as => rfl
      have hstep : fsFind (mkdirStep acc pk) pk = some Entry.dir := by
        cases hacc with
        | inl hnone => simp [mkdirStep, hempty, hnone, fsFind]
        | inr hdir => simp [mkdirStep, hempty, hdir]
      exact foldl_mkdirStep_preserve rest _ pk hstep
    · have hmem2 : k ∈ rest := by
        rcases List.mem_cons.mp hmem with h1 | h1
        · exact absurd h1.symm hpk
        · exact h1
      apply ih _ k hmem2 hk
      rw [fsFind_mkdirStep_ne acc pk k hpk]
      exact hacc

/-- C9 counterexample: no entry exists at the resolved path `a.txt/d`, yet
create_directory returns an error (an ancestor is an existing regular file,
so the mkdir call fails) and creates nothing — refuting that every
no-entry path yields success. -/
theorem c9_create_directory_under_file_fails :
    fsFind fsA (resolvedKey dataBase ⟨false, ["a.txt", "d"]⟩) = none ∧
    create_directory dataBase fsA noFaults ⟨false, ["a.txt", "d"]⟩ =
      Except.ok (OpResult.error
        "Error creating directory a.txt/d: [Errno 20] Not a directory", fsA) :=
  ⟨rfl, rfl⟩

/-- C9 (amended): when no entry exists at the resolved path, no walked
ancestor is an existing regular file and the mkdir call succeeds,
create_directory creates the directory together with every missing
ancestor and returns success; a path already holding a file or a
directory gets the matching collision error and nothing is created. -/
theorem c9_create_directory_recursive (b : PyPath) (fs : FS) (flt : Faults) (p : PyPath) :
    (fsFind fs (resolvedKey b p) = none → resolvedKey b p ≠ [] →
      flt.mkdirFail = none → ancestorsOk fs (resolvedKey b p) = true →
      create_directory b fs flt p =
        Except.ok (OpResult.message s!"Directory {p.str} created successfully.",
          mkdirs fs (resolvedKey b p)) ∧
      (∀ pk ∈ properInits (resolvedKey b p) ++ [resolvedKey b p], pk ≠ [] →
        fsFind (mkdirs fs (resolvedKey b p)) pk = some Entry.dir)) ∧
    (∀ d, fsFind fs (resolvedKey b p) = some (Entry.file d) →
      create_directory b fs flt p =
        Except.ok (OpResult.error s!"File {p.str} is an existing file.", fs)) ∧
    (fsFind fs (resolvedKey b p) = some Entry.dir →
      create_directory b fs flt p =
        Except.ok (OpResult.error s!"Directory {p.str} already exists.", fs)) := by
  refine ⟨?_, ?_, ?_⟩
  · intro hnone hkne hm hanc
    constructor
    · simp [create_directory, pyExists, hnone, hm, hanc]
    · intro pk hpk hpkne
      unfold mkdirs
      apply foldl_mkdirStep_creates _ _ _ hpk hpkne
      rcases List.mem_append.mp hpk with hin | hin
      · have hnf : pyIsFile fs pk = false := by
          rw [ancestorsOk] at hanc
          simpa using (List.all_eq_true.mp hanc) pk hin
        cases hfind : fsFind fs pk with
        | none => exact Or.inl rfl
        | some e =>
          cases e with
          | dir => exact Or.inr rfl
          | file d => simp [pyIsFile, hfind] at hnf
      · have hpkk : pk = resolvedKey b p := by simpa using hin
        rw [hpkk]
        exact Or.inl hnone
  · intro d hf
    simp [create_directory, pyExists, pyIsFile, hf]
  · intro hf
    simp [create_directory, pyExists, pyIsFile, hf]

/-- C9 witness: creating `x/y` in fsA succeeds and materialises both the
intermediate directory `x` and the target `x/y`. -/
theorem c9_create_directory_recursive_witness :
    fsFind fsA (resolvedKey dataBase ⟨false, ["x", "y"]⟩) = none ∧
    ancestorsOk fsA (resolvedKey dataBase ⟨false, ["x", "y"]⟩) = true ∧
    (create_directory dataBase fsA noFaults ⟨false, ["x", "y"]⟩ =
        Except.ok (OpResult.message "Directory x/y created successfully.",
          mkdirs fsA (resolvedKey dataBase ⟨false, ["x", "y"]⟩)) ∧
      (∀ pk ∈ properInits (resolvedKey dataBase ⟨false, ["x", "y"]⟩) ++
          [resolvedKey dataBase ⟨false, ["x", "y"]⟩], pk ≠ [] →
        fsFind (mkdirs fsA (resolvedKey dataBase ⟨false, ["x", "y"]⟩)) pk =
          some Entry.dir)) :=
  ⟨rfl, rfl,
    (c9_create_directory_recursive dataBase fsA noFaults ⟨false, ["x", "y"]⟩).1
      rfl (by decide) rfl rfl⟩
